import Mathlib

/-!
Verification development for the daedalus metadata resolution engine
(`src/daedalus/src/minecraft.rs`).

The Rust data model is embedded shallowly:
* `HashMap`/`BTreeMap` fields become association lists (`List (K × V)`), the
  list order standing for the map's iteration order.  For a `BTreeMap` that
  order is a function of the key set (sorted); for a `HashMap` it depends on
  the per-map random hasher seed and is therefore not determined by the map's
  contents.
* `chrono::DateTime<Utc>` becomes a timestamp (`Nat`); `DateTime::default()`
  is the epoch sentinel `0`.
* Rust strings are UTF-8: `str::len` is the byte length and byte slicing
  `&s[..i]` panics when `i` is not a character boundary.  Functions that can
  panic return `Fallible`.
* `GradleSpecifier` lives outside the provided source file; per the spec it is
  a Maven-style coordinate string, so it is modelled as `String`.
-/

set_option autoImplicit false

/-- Association-list lookup.  Models `HashMap::get` / `BTreeMap::get`; the
list holds the map's key-value pairs in iteration order. -/
def alLookup {K V : Type} [DecidableEq K] : List (K × V) → K → Option V
  | [], _ => none
  | (k', v') :: rest, k => if k' = k then some v' else alLookup rest k

/-- Association-list insert.  Models `BTreeMap::insert`: replaces the value at
an existing key in place, otherwise adds a new binding. -/
def alInsert {K V : Type} [DecidableEq K] : List (K × V) → K → V → List (K × V)
  | [], k, v => [(k, v)]
  | (k', v') :: rest, k, v =>
    if k' = k then (k, v) :: rest else (k', v') :: alInsert rest k v

/-- Inserts every binding of `entries` into `base` in order.  Models the
`for x in map { dest.insert(x.0, x.1) }` loops of `merge_partial_library`. -/
def alInsertAll {K V : Type} [DecidableEq K]
    (base entries : List (K × V)) : List (K × V) :=
  entries.foldl (fun acc kv => alInsert acc kv.1 kv.2) base

/-- Left-biased choice on options; `optOr a b` is `a` unless `a` is `none`. -/
def optOr {α : Type} : Option α → Option α → Option α
  | some a, _ => some a
  | none, b => b

/-- Byte size of one character under UTF-8 encoding (Rust strings are UTF-8). -/
def utf8CharSize (c : Char) : Nat :=
  if c.toNat < 128 then 1
  else if c.toNat < 2048 then 2
  else if c.toNat < 65536 then 3
  else 4

/-- Rust `str::len`: the length of the string in UTF-8 bytes. -/
def utf8ByteLen (s : String) : Nat :=
  s.data.foldl (fun n c => n + utf8CharSize c) 0

/-- Helper for `utf8SplitAt`: walks the characters consuming a byte budget. -/
def utf8SplitGo : List Char → Nat → List Char → Option (List Char × List Char)
  | cs, 0, acc => some (acc.reverse, cs)
  | [], _ + 1, _ => none
  | c :: cs, i + 1, acc =>
    if utf8CharSize c ≤ i + 1 then
      utf8SplitGo cs (i + 1 - utf8CharSize c) (c :: acc)
    else none

/-- Rust byte slicing `(&s[..i], &s[i..])`.  Returns `none` exactly when Rust
would panic: byte index `i` is past the end or not a character boundary. -/
def utf8SplitAt (s : String) (i : Nat) : Option (String × String) :=
  match utf8SplitGo s.data i [] with
  | some (l, r) => some (⟨l⟩, ⟨r⟩)
  | none => none

/-- Outcome of a Rust computation that can panic. -/
inductive Fallible (α : Type) where
  | ok : α → Fallible α
  | crash : Fallible α
deriving DecidableEq, Repr

/-- Rust `chrono::DateTime<Utc>`, modelled as a timestamp. -/
abbrev DateTimeUtc := Nat

/-- The sentinel `DateTime::default()` (Unix epoch) used by
`LWJGLEntry::from_group`. -/
def dateTimeDefault : DateTimeUtc := 0

/-- The maven coordinate type `GradleSpecifier`.  Its definition is outside
the provided source file; per spec section 6 it serializes as a Maven-style
coordinate string, so it is modelled as that string. -/
abbrev GradleSpecifier := String

/-- The version type (minecraft.rs lines 11-23). -/
inductive VersionType where
  | Release
  | Snapshot
  | OldAlpha
  | OldBeta
deriving DecidableEq, Repr

/-- The action a rule can follow (minecraft.rs lines 230-238). -/
inductive RuleAction where
  | Allow
  | Disallow
deriving DecidableEq, Repr

/-- The operating system enumeration (minecraft.rs lines 240-262). -/
inductive Os where
  | Osx
  | OsxArm64
  | Windows
  | WindowsArm64
  | Linux
  | LinuxArm64
  | LinuxArm32
  | Unknown
deriving DecidableEq, Repr

/-- Download information of a library (minecraft.rs lines 205-216). -/
structure LibraryDownload where
  path : String
  sha1 : String
  size : Nat
  url : Option String
deriving DecidableEq, Repr

/-- Files to be downloaded for a library (minecraft.rs lines 218-228).
`classifiers` is a `BTreeMap<String, LibraryDownload>`. -/
structure LibraryDownloads where
  artifact : Option LibraryDownload
  classifiers : Option (List (String × LibraryDownload))
deriving DecidableEq, Repr

/-- A rule depending on the user's OS (minecraft.rs lines 264-276). -/
structure OsRule where
  name : Option Os
  version : Option String
  arch : Option String
deriving DecidableEq, Repr

/-- A rule depending on launcher feature toggles (minecraft.rs lines 278-298). -/
structure FeatureRule where
  is_demo_user : Option Bool
  has_custom_resolution : Option Bool
  has_quick_plays_support : Option Bool
  is_quick_play_singleplayer : Option Bool
  is_quick_play_multiplayer : Option Bool
  is_quick_play_realms : Option Bool
deriving DecidableEq, Repr

/-- A rule deciding whether a file is downloaded, an argument is used, etc.
(minecraft.rs lines 300-311). -/
structure Rule where
  action : RuleAction
  os : Option OsRule
  features : Option FeatureRule
deriving DecidableEq, Repr

/-- Extraction information of a library (minecraft.rs lines 313-319). -/
structure LibraryExtract where
  exclude : Option (List String)
deriving DecidableEq, Repr

/-- A library the game relies on (minecraft.rs lines 331-366).
`natives` is a `BTreeMap<Os, String>`; `version_hashes` is a
`HashMap<String, String>`, so its association list stands for a
seed-dependent iteration order. -/
structure Library where
  downloads : Option LibraryDownloads
  extract : Option LibraryExtract
  name : GradleSpecifier
  url : Option String
  natives : Option (List (Os × String))
  rules : Option (List Rule)
  checksums : Option (List String)
  include_in_classpath : Bool
  patched : Bool
  version_hashes : Option (List (String × String))
deriving DecidableEq, Repr

/-- Embeds `Library::resolve_url` (minecraft.rs lines 409-429).  Rust's
`hash.len()` is the UTF-8 byte length, and `&hash[..2]` / `&hash[2..]` are
byte slices that panic when byte index 2 is not a character boundary;
`Fallible.crash` models that panic. -/
def Library.resolve_url (self : Library) (minecraft_version : String)
    (base_url : String) (cas_version : Nat) : Fallible (Option String) :=
  match self.version_hashes with
  | some hashes =>
    match alLookup hashes minecraft_version with
    | some hash =>
      if utf8ByteLen hash < 2 then Fallible.ok none
      else
        match utf8SplitAt hash 2 with
        | some (pre, suf) =>
          Fallible.ok (some (base_url ++ "/v" ++ toString cas_version ++
            "/objects/" ++ pre ++ "/" ++ suf))
        | none => Fallible.crash
    | none => Fallible.ok self.url
  | none => Fallible.ok self.url

/-- A partial library to be merged with a full library
(minecraft.rs lines 432-451).  It carries no `version_hashes` field. -/
structure PartialLibrary where
  downloads : Option LibraryDownloads
  extract : Option LibraryExtract
  name : Option GradleSpecifier
  url : Option String
  natives : Option (List (Os × String))
  rules : Option (List Rule)
  checksums : Option (List String)
  include_in_classpath : Option Bool
deriving DecidableEq, Repr

/-- The `if let Some(downloads) = partial.downloads` block of
`merge_partial_library` (minecraft.rs lines 495-514). -/
def mergeDownloadsStep (p : PartialLibrary) (merge : Library) : Library :=
  match p.downloads with
  | some downloads =>
    match merge.downloads with
    | some merge_downloads =>
      let md1 :=
        match downloads.artifact with
        | some artifact => { merge_downloads with artifact := some artifact }
        | none => merge_downloads
      let md2 :=
        match downloads.classifiers with
        | some classifiers =>
          match md1.classifiers with
          | some merge_classifiers =>
            { md1 with classifiers := some (alInsertAll merge_classifiers classifiers) }
          | none => { md1 with classifiers := some classifiers }
        | none => md1
      { merge with downloads := some md2 }
    | none => { merge with downloads := some downloads }
  | none => merge

/-- The `extract` block of `merge_partial_library`
(minecraft.rs lines 515-517). -/
def mergeExtractStep (p : PartialLibrary) (merge : Library) : Library :=
  match p.extract with
  | some extract => { merge with extract := some extract }
  | none => merge

/-- The `name` block of `merge_partial_library` (minecraft.rs lines 518-520). -/
def mergeNameStep (p : PartialLibrary) (merge : Library) : Library :=
  match p.name with
  | some name => { merge with name := name }
  | none => merge

/-- The `url` block of `merge_partial_library` (minecraft.rs lines 521-523). -/
def mergeUrlStep (p : PartialLibrary) (merge : Library) : Library :=
  match p.url with
  | some url => { merge with url := some url }
  | none => merge

/-- The `natives` block of `merge_partial_library`
(minecraft.rs lines 524-532). -/
def mergeNativesStep (p : PartialLibrary) (merge : Library) : Library :=
  match p.natives with
  | some natives =>
    match merge.natives with
    | some merge_natives =>
      { merge with natives := some (alInsertAll merge_natives natives) }
    | none => { merge with natives := some natives }
  | none => merge

/-- The `rules` block of `merge_partial_library`
(minecraft.rs lines 533-541); the source pushes each partial rule onto the
end of the base vector, i.e. appends. -/
def mergeRulesStep (p : PartialLibrary) (merge : Library) : Library :=
  match p.rules with
  | some rules =>
    match merge.rules with
    | some merge_rules => { merge with rules := some (merge_rules ++ rules) }
    | none => { merge with rules := some rules }
  | none => merge

/-- The `checksums` block of `merge_partial_library`
(minecraft.rs lines 542-544). -/
def mergeChecksumsStep (p : PartialLibrary) (merge : Library) : Library :=
  match p.checksums with
  | some checksums => { merge with checksums := some checksums }
  | none => merge

/-- The `include_in_classpath` block of `merge_partial_library`
(minecraft.rs lines 545-547). -/
def mergeClasspathStep (p : PartialLibrary) (merge : Library) : Library :=
  match p.include_in_classpath with
  | some include_in_classpath =>
    { merge with include_in_classpath := include_in_classpath }
  | none => merge

/-- Embeds `merge_partial_library` (minecraft.rs lines 491-551) as the
sequence of its field blocks, ending with `merge.patched = true`. -/
def merge_partial_library (p : PartialLibrary) (merge : Library) : Library :=
  let merge := mergeDownloadsStep p merge
  let merge := mergeExtractStep p merge
  let merge := mergeNameStep p merge
  let merge := mergeUrlStep p merge
  let merge := mergeNativesStep p merge
  let merge := mergeRulesStep p merge
  let merge := mergeChecksumsStep p merge
  let merge := mergeClasspathStep p merge
  { merge with patched := true }

/-- The partial library with every field absent. -/
def emptyPartial : PartialLibrary :=
  ⟨none, none, none, none, none, none, none, none⟩

/-- The classifier map of a library, the empty map when absent. -/
def libClassifiers (L : Library) : List (String × LibraryDownload) :=
  match L.downloads with
  | some d => d.classifiers.getD []
  | none => []

/-- The classifier map of a partial library, the empty map when absent. -/
def pClassifiers (p : PartialLibrary) : List (String × LibraryDownload) :=
  match p.downloads with
  | some d => d.classifiers.getD []
  | none => []

/-- The natives map of a library, the empty map when absent. -/
def libNatives (L : Library) : List (Os × String) := L.natives.getD []

/-- The natives map of a partial library, the empty map when absent. -/
def pNatives (p : PartialLibrary) : List (Os × String) := p.natives.getD []

/-- The doc example of `resolve_url`: an intermediary library with a hash for
game version 1.16.5 and no static url. -/
def libC3 : Library :=
  ⟨none, none, "net.fabricmc:intermediary:1.16.5", some "http://x", none, none,
    none, true, false, some [("1.16.5", "abc123def456")]⟩

/-- A library whose stored hash has byte length 3 but a multi-byte character
crossing byte index 2. -/
def libC3x : Library :=
  ⟨none, none, "g:a:1", some "http://x", none, none, none, true, false,
    some [("1.20", "aé")]⟩

/-- A library with a length-1 hash for 1.21 and a boundary-breaking hash for
1.20. -/
def libC4 : Library :=
  ⟨none, none, "g:a:1", none, none, none, none, true, false,
    some [("1.20", "aé"), ("1.21", "a")]⟩

/-- A rule allowing unconditionally. -/
def ruleAllowAll : Rule := ⟨RuleAction.Allow, none, none⟩

/-- A rule disallowing on macOS. -/
def ruleDisallowOsx : Rule := ⟨RuleAction.Disallow, some ⟨some Os.Osx, none, none⟩, none⟩

/-- Base library for the C6 witness, with one rule. -/
def libC6 : Library :=
  ⟨none, none, "g:a:1", none, none, some [ruleAllowAll], none, true, false, none⟩

/-- Partial library for the C6 witness, with one rule. -/
def partC6 : PartialLibrary :=
  ⟨none, none, none, none, none, some [ruleDisallowOsx], none, none⟩

/-- Classifier artifact X of the C7 witness. -/
def dlX : LibraryDownload := ⟨"path/x", "sha-x", 1, none⟩

/-- Classifier artifact Y of the C7 witness. -/
def dlY : LibraryDownload := ⟨"path/y", "sha-y", 2, none⟩

/-- Base library for the C7 witness: classifiers `{"b": Y}`, one native. -/
def libC7 : Library :=
  ⟨some ⟨none, some [("b", dlY)]⟩, none, "g:a:1", none,
    some [(Os.Linux, "natives-linux")], none, none, true, false, none⟩

/-- Partial library for the C7 witness: classifiers `{"a": X}`, one native. -/
def partC7 : PartialLibrary :=
  ⟨some ⟨none, some [("a", dlX)]⟩, none, none, none,
    some [(Os.Osx, "natives-osx")], none, none, none⟩

/-- Base library for the C10 witness. -/
def libC10 : Library :=
  ⟨none, none, "g:a:1", some "http://x", none, none, none, true, false,
    some [("1.20", "abcd1234")]⟩

/-- Partial library for the C10 witness: overrides the url. -/
def partC10 : PartialLibrary :=
  ⟨none, none, none, some "http://y", none, none, none, none⟩

/-- Base library for the C10 counterexample: no hashes, no url. -/
def libC10x : Library :=
  ⟨none, none, "g:a:1", none, none, none, none, true, false, none⟩

/-- Partial library for the C10 counterexample: adds a url. -/
def partC10x : PartialLibrary :=
  ⟨none, none, none, some "http://x", none, none, none, none⟩

/-- JSON string escaping; serde_json escapes the quote and the backslash
(control characters, also escaped by serde_json, do not occur in the embedded
data). -/
def jsonEscape (s : String) : String :=
  String.join (s.data.map fun c =>
    if c = '\\' then "\\\\"
    else if c = '"' then "\\\""
    else String.singleton c)

/-- A JSON string literal. -/
def jsonStr (s : String) : String := "\"" ++ jsonEscape s ++ "\""

/-- A JSON object member. -/
def jsonField (name val : String) : String := jsonStr name ++ ":" ++ val

/-- A compact JSON object, as `serde_json::to_vec` produces. -/
def jsonObj (fields : List String) : String :=
  "\x7b" ++ String.intercalate "," fields ++ "\x7d"

/-- A compact JSON array. -/
def jsonArr (elems : List String) : String :=
  "[" ++ String.intercalate "," elems ++ "]"

/-- A JSON boolean. -/
def jsonBool (b : Bool) : String := if b then "true" else "false"

/-- A field under `skip_serializing_if = "Option::is_none"`: absent fields
produce no member at all. -/
def jsonOptField {α : Type} (name : String) (v : Option α) (ser : α → String) :
    List String :=
  match v with
  | some a => [jsonField name (ser a)]
  | none => []

/-- An `Option` field without a skip attribute: `None` serializes as null. -/
def jsonNullableField {α : Type} (name : String) (v : Option α)
    (ser : α → String) : List String :=
  [jsonField name (match v with | some a => ser a | none => "null")]

/-- The serde tokens of `VersionType` under `rename_all = "snake_case"`. -/
def VersionType.serialize : VersionType → String
  | .Release => "release"
  | .Snapshot => "snapshot"
  | .OldAlpha => "old_alpha"
  | .OldBeta => "old_beta"

/-- The serde tokens of `Os` under `rename_all = "kebab-case"`. -/
def Os.serialize : Os → String
  | .Osx => "osx"
  | .OsxArm64 => "osx-arm64"
  | .Windows => "windows"
  | .WindowsArm64 => "windows-arm64"
  | .Linux => "linux"
  | .LinuxArm64 => "linux-arm64"
  | .LinuxArm32 => "linux-arm32"
  | .Unknown => "unknown"

/-- The serde tokens of `RuleAction` under `rename_all = "snake_case"`. -/
def RuleAction.serialize : RuleAction → String
  | .Allow => "allow"
  | .Disallow => "disallow"

/-- serde_json output for `LibraryDownload` (fields in declaration order;
`url` has no skip attribute, so `None` becomes null). -/
def serializeLibraryDownload (d : LibraryDownload) : String :=
  jsonObj ([jsonField "path" (jsonStr d.path), jsonField "sha1" (jsonStr d.sha1),
    jsonField "size" (toString d.size)] ++ jsonNullableField "url" d.url jsonStr)

/-- serde_json output for a string-keyed map, in iteration order. -/
def serializeStrMap {α : Type} (ser : α → String) (m : List (String × α)) :
    String :=
  jsonObj (m.map fun kv => jsonField kv.1 (ser kv.2))

/-- serde_json output for `LibraryDownloads` (both fields skip when absent). -/
def serializeLibraryDownloads (d : LibraryDownloads) : String :=
  jsonObj (jsonOptField "artifact" d.artifact serializeLibraryDownload ++
    jsonOptField "classifiers" d.classifiers
      (serializeStrMap serializeLibraryDownload))

/-- serde_json output for `OsRule` (all fields skip when absent). -/
def serializeOsRule (r : OsRule) : String :=
  jsonObj (jsonOptField "name" r.name (fun o => jsonStr o.serialize) ++
    jsonOptField "version" r.version jsonStr ++
    jsonOptField "arch" r.arch jsonStr)

/-- serde_json output for `FeatureRule` (the first five fields skip when
absent; `is_quick_play_realms` carries no skip attribute). -/
def serializeFeatureRule (f : FeatureRule) : String :=
  jsonObj (jsonOptField "is_demo_user" f.is_demo_user jsonBool ++
    jsonOptField "has_custom_resolution" f.has_custom_resolution jsonBool ++
    jsonOptField "has_quick_plays_support" f.has_quick_plays_support jsonBool ++
    jsonOptField "is_quick_play_singleplayer" f.is_quick_play_singleplayer jsonBool ++
    jsonOptField "is_quick_play_multiplayer" f.is_quick_play_multiplayer jsonBool ++
    jsonNullableField "is_quick_play_realms" f.is_quick_play_realms jsonBool)

/-- serde_json output for `Rule`. -/
def serializeRule (r : Rule) : String :=
  jsonObj ([jsonField "action" (jsonStr r.action.serialize)] ++
    jsonOptField "os" r.os serializeOsRule ++
    jsonOptField "features" r.features serializeFeatureRule)

/-- serde_json output for `LibraryExtract`. -/
def serializeLibraryExtract (e : LibraryExtract) : String :=
  jsonObj (jsonOptField "exclude" e.exclude (fun xs => jsonArr (xs.map jsonStr)))

/-- serde_json output for `Library`, fields in declaration order: `patched`
carries `#[serde(skip)]` and is never serialized; `include_in_classpath` is
always serialized; the other fields skip when absent.  The `natives` map
(`BTreeMap`) iterates in sorted key order; the `version_hashes` map
(`HashMap`) iterates in the order held by the embedded list. -/
def serializeLibrary (l : Library) : String :=
  jsonObj (jsonOptField "downloads" l.downloads serializeLibraryDownloads ++
    jsonOptField "extract" l.extract serializeLibraryExtract ++
    [jsonField "name" (jsonStr l.name)] ++
    jsonOptField "url" l.url jsonStr ++
    jsonOptField "natives" l.natives
      (fun m => jsonObj (m.map fun kv => jsonField kv.1.serialize (jsonStr kv.2))) ++
    jsonOptField "rules" l.rules (fun rs => jsonArr (rs.map serializeRule)) ++
    jsonOptField "checksums" l.checksums (fun xs => jsonArr (xs.map jsonStr)) ++
    [jsonField "include_in_classpath" (jsonBool l.include_in_classpath)] ++
    jsonOptField "version_hashes" l.version_hashes (serializeStrMap jsonStr))

/-- A dependency rule, either suggests or equals
(minecraft.rs lines 453-461). -/
inductive DependencyRule where
  | Equals : String → DependencyRule
  | Suggests : String → DependencyRule
deriving DecidableEq, Repr

/-- A library dependency (minecraft.rs lines 463-474). -/
structure Dependency where
  name : String
  uid : String
  rule : Option DependencyRule
deriving DecidableEq, Repr

/-- serde_json output for `Dependency`; the rule is flattened into the object
and skipped when absent. -/
def serializeDependency (d : Dependency) : String :=
  jsonObj ([jsonField "name" (jsonStr d.name), jsonField "uid" (jsonStr d.uid)] ++
    (match d.rule with
     | some (.Equals s) => [jsonField "equals" (jsonStr s)]
     | some (.Suggests s) => [jsonField "suggests" (jsonStr s)]
     | none => []))

/-- Information about a grouping of libraries (minecraft.rs lines 694-719). -/
structure LibraryGroup where
  id : String
  version : String
  uid : String
  release_time : DateTimeUtc
  type_ : VersionType
  libraries : List Library
  requires : Option (List Dependency)
  conflicts : Option (List Dependency)
  has_split_natives : Option Bool
deriving DecidableEq, Repr

/-- chrono serializes `DateTime<Utc>` as an RFC 3339 string; the model renders
the timestamp injectively as a decimal string. -/
def serializeDateTime (t : DateTimeUtc) : String := jsonStr (toString t)

/-- serde_json output for `LibraryGroup` under `rename_all = "camelCase"`,
fields in declaration order; `has_split_natives` carries
`#[serde(skip_serializing)]` and is never serialized. -/
def serializeLibraryGroup (g : LibraryGroup) : String :=
  jsonObj ([jsonField "id" (jsonStr g.id),
    jsonField "version" (jsonStr g.version),
    jsonField "uid" (jsonStr g.uid),
    jsonField "releaseTime" (serializeDateTime g.release_time),
    jsonField "type" (jsonStr g.type_.serialize),
    jsonField "libraries" (jsonArr (g.libraries.map serializeLibrary))] ++
    jsonOptField "requires" g.requires
      (fun ds => jsonArr (ds.map serializeDependency)) ++
    jsonOptField "conflicts" g.conflicts
      (fun ds => jsonArr (ds.map serializeDependency)))

/-- Reduction of a natural number to a 32-bit word. -/
def w32 (n : Nat) : Nat := n % 4294967296

/-- 32-bit left rotation. -/
def rotl32 (k x : Nat) : Nat := w32 ((x <<< k) ||| (x >>> (32 - k)))

/-- UTF-8 encoding of one character. -/
def utf8EncodeChar (c : Char) : List Nat :=
  let n := c.toNat
  if n < 128 then [n]
  else if n < 2048 then [192 + n / 64, 128 + n % 64]
  else if n < 65536 then [224 + n / 4096, 128 + (n / 64) % 64, 128 + n % 64]
  else [240 + n / 262144, 128 + (n / 4096) % 64, 128 + (n / 64) % 64, 128 + n % 64]

/-- The UTF-8 bytes of a string. -/
def strBytes (s : String) : List Nat :=
  s.data.foldr (fun c acc => utf8EncodeChar c ++ acc) []

/-- SHA-1 message padding: append 0x80, zeros to 56 mod 64, then the 64-bit
big-endian bit length. -/
def sha1Pad (msg : List Nat) : List Nat :=
  let len := msg.length
  let zeros := (56 + 64 - (len + 1) % 64) % 64
  msg ++ [128] ++ List.replicate zeros 0 ++
    (List.range 8).map (fun i => ((len * 8) >>> (8 * (7 - i))) % 256)

/-- Big-endian 32-bit word `i` of a 64-byte chunk. -/
def chunkWord (chunk : List Nat) (i : Nat) : Nat :=
  chunk.getD (4 * i) 0 * 16777216 + chunk.getD (4 * i + 1) 0 * 65536 +
    chunk.getD (4 * i + 2) 0 * 256 + chunk.getD (4 * i + 3) 0

/-- The 80-word SHA-1 message schedule of a chunk. -/
def sha1Schedule (chunk : List Nat) : Array Nat :=
  let w0 := (List.range 16).foldl (fun a i => a.push (chunkWord chunk i)) #[]
  (List.range 64).foldl (fun a i =>
    a.push (rotl32 1 (a.getD (i + 13) 0 ^^^ a.getD (i + 8) 0 ^^^
      a.getD (i + 2) 0 ^^^ a.getD i 0))) w0

/-- The five 32-bit words of the SHA-1 state. -/
structure Sha1State where
  a : Nat
  b : Nat
  c : Nat
  d : Nat
  e : Nat
deriving DecidableEq, Repr

/-- The SHA-1 initialization vector. -/
def sha1Init : Sha1State :=
  ⟨1732584193, 4023233417, 2562383102, 271733878, 3285377520⟩

/-- One SHA-1 compression round. -/
def sha1Round (s : Sha1State) (i wi : Nat) : Sha1State :=
  let f :=
    if i < 20 then (s.b &&& s.c) ||| ((s.b ^^^ 4294967295) &&& s.d)
    else if i < 40 then s.b ^^^ s.c ^^^ s.d
    else if i < 60 then (s.b &&& s.c) ||| (s.b &&& s.d) ||| (s.c &&& s.d)
    else s.b ^^^ s.c ^^^ s.d
  let k :=
    if i < 20 then 1518500249
    else if i < 40 then 1859775393
    else if i < 60 then 2400959708
    else 3395469782
  let temp := w32 (rotl32 5 s.a + f + s.e + k + wi)
  ⟨temp, s.a, rotl32 30 s.b, s.c, s.d⟩

/-- Compression of one 64-byte chunk into the running state. -/
def sha1Chunk (s : Sha1State) (chunk : List Nat) : Sha1State :=
  let w := sha1Schedule chunk
  let t := (List.range 80).foldl (fun st i => sha1Round st i (w.getD i 0)) s
  ⟨w32 (s.a + t.a), w32 (s.b + t.b), w32 (s.c + t.c), w32 (s.d + t.d),
    w32 (s.e + t.e)⟩

/-- SHA-1 over a byte list. -/
def sha1Bytes (msg : List Nat) : Sha1State :=
  let padded := sha1Pad msg
  (List.range (padded.length / 64)).foldl
    (fun s ci => sha1Chunk s ((padded.drop (64 * ci)).take 64)) sha1Init

/-- A lowercase hexadecimal digit. -/
def hexDigit (n : Nat) : Char :=
  if n < 10 then Char.ofNat (48 + n) else Char.ofNat (87 + n)

/-- Lowercase 8-hex-digit rendering of a 32-bit word. -/
def hex8 (n : Nat) : String :=
  String.mk ((List.range 8).map fun i => hexDigit ((n >>> (4 * (7 - i))) % 16))

/-- The `sha1` crate's `hexdigest` of a string: lowercase hex of the 20-byte
SHA-1 digest of its UTF-8 bytes. -/
def sha1Hex (s : String) : String :=
  let st := sha1Bytes (strBytes s)
  hex8 st.a ++ hex8 st.b ++ hex8 st.c ++ hex8 st.d ++ hex8 st.e

/-- A pairing of a library group with a sha1 of its json representation
(minecraft.rs lines 721-728). -/
structure LWJGLEntry where
  sha1 : String
  group : LibraryGroup
deriving DecidableEq, Repr

/-- Embeds `LWJGLEntry::from_group` (minecraft.rs lines 730-747): serializes a
copy of the group with `release_time` reset to the default sentinel, hashes it
with SHA-1, and keeps the original group. -/
def LWJGLEntry.from_group (group : LibraryGroup) : LWJGLEntry :=
  let group_copy := { group with release_time := dateTimeDefault }
  let hash := sha1Hex (serializeLibraryGroup group_copy)
  { sha1 := hash, group := group }

/-- A library whose `version_hashes` HashMap holds two entries, listed in one
possible iteration order. -/
def libC1a : Library :=
  ⟨none, none, "org.lwjgl:lwjgl:3", none, none, none, none, true, false,
    some [("a", "xx"), ("b", "yy")]⟩

/-- The same HashMap contents in the other iteration order. -/
def libC1b : Library :=
  ⟨none, none, "org.lwjgl:lwjgl:3", none, none, none, none, true, false,
    some [("b", "yy"), ("a", "xx")]⟩

/-- A library group holding `libC1a`. -/
def groupC1a : LibraryGroup :=
  ⟨"lwjgl", "3", "org.lwjgl", 7, VersionType.Release, [libC1a], none, none, none⟩

/-- The same group data with the other HashMap iteration order. -/
def groupC1b : LibraryGroup :=
  ⟨"lwjgl", "3", "org.lwjgl", 7, VersionType.Release, [libC1b], none, none, none⟩

/-- Modelled from the spec: the execution context of rule evaluation (spec
section 3).  The rule evaluator itself is not part of the provided source
file, which defines only the `Rule` data type; the context carries the OS
identifier, optional host OS version and architecture, and the fixed set of
boolean feature flags named by `FeatureRule`. -/
structure ExecutionContext where
  os : Os
  os_version : Option String
  arch : Option String
  is_demo_user : Bool
  has_custom_resolution : Bool
  has_quick_plays_support : Bool
  is_quick_play_singleplayer : Bool
  is_quick_play_multiplayer : Bool
  is_quick_play_realms : Bool
deriving DecidableEq, Repr

/-- Modelled from the spec: a present feature predicate must equal the flag's
value; absent predicates are not checked (spec section 4.1). -/
def optBoolMatches (expected : Option Bool) (actual : Bool) : Bool :=
  match expected with
  | some b => b == actual
  | none => true

/-- Modelled from the spec: an OS rule matches iff every present predicate
matches — `name` and `arch` by exact equality, `version` through a pluggable
matcher (spec section 4.1). -/
def OsRule.matchesCtx (vmatch : String → Option String → Bool) (r : OsRule)
    (ctx : ExecutionContext) : Bool :=
  (match r.name with
   | some n => n == ctx.os
   | none => true) &&
  (match r.version with
   | some pat => vmatch pat ctx.os_version
   | none => true) &&
  (match r.arch with
   | some a => some a == ctx.arch
   | none => true)

/-- Modelled from the spec: a feature rule matches iff each present predicate
equals the corresponding context flag (spec section 4.1). -/
def FeatureRule.matchesCtx (f : FeatureRule) (ctx : ExecutionContext) : Bool :=
  optBoolMatches f.is_demo_user ctx.is_demo_user &&
  optBoolMatches f.has_custom_resolution ctx.has_custom_resolution &&
  optBoolMatches f.has_quick_plays_support ctx.has_quick_plays_support &&
  optBoolMatches f.is_quick_play_singleplayer ctx.is_quick_play_singleplayer &&
  optBoolMatches f.is_quick_play_multiplayer ctx.is_quick_play_multiplayer &&
  optBoolMatches f.is_quick_play_realms ctx.is_quick_play_realms

/-- Modelled from the spec: a rule matches iff its present OS rule and feature
rule both match; a rule with neither matches unconditionally
(spec section 4.1). -/
def Rule.matchesCtx (vmatch : String → Option String → Bool) (r : Rule)
    (ctx : ExecutionContext) : Bool :=
  (match r.os with
   | some o => o.matchesCtx vmatch ctx
   | none => true) &&
  (match r.features with
   | some f => f.matchesCtx ctx
   | none => true)

/-- Modelled from the spec: rule evaluation — an empty sequence means
included; otherwise fold in order from `false`, each matching rule
overriding the running decision with `action == Allow` (spec section 4.1). -/
def evaluateRules (vmatch : String → Option String → Bool) (rules : List Rule)
    (ctx : ExecutionContext) : Bool :=
  match rules with
  | [] => true
  | _ =>
    rules.foldl
      (fun acc r =>
        if r.matchesCtx vmatch ctx then
          match r.action with
          | RuleAction.Allow => true
          | RuleAction.Disallow => false
        else acc) false

/-- A rule disallowing unconditionally. -/
def ruleDisallowAll : Rule := ⟨RuleAction.Disallow, none, none⟩

/-- A concrete Linux execution context with all feature flags off. -/
def ctxLinux : ExecutionContext :=
  ⟨Os.Linux, none, none, false, false, false, false, false, false⟩

/-- Embeds serde's derived deserializer for `Os` (minecraft.rs lines 240-262):
`rename_all = "kebab-case"` over the eight unit variants and no
`#[serde(other)]` attribute, so the derive accepts exactly the eight renamed
tokens and rejects every other token with an unknown-variant error. -/
def Os.deserialize (token : String) : Except String Os :=
  if token = "osx" then Except.ok Os.Osx
  else if token = "osx-arm64" then Except.ok Os.OsxArm64
  else if token = "windows" then Except.ok Os.Windows
  else if token = "windows-arm64" then Except.ok Os.WindowsArm64
  else if token = "linux" then Except.ok Os.Linux
  else if token = "linux-arm64" then Except.ok Os.LinuxArm64
  else if token = "linux-arm32" then Except.ok Os.LinuxArm32
  else if token = "unknown" then Except.ok Os.Unknown
  else Except.error ("unknown variant " ++ token)

/-- Looking up after a single insert: the inserted key maps to the new value,
all other keys are unchanged. -/
theorem alLookup_insert {K V : Type} [DecidableEq K]
    (m : List (K × V)) (k' k : K) (v' : V) :
    alLookup (alInsert m k' v') k = if k' = k then some v' else alLookup m k := by
  induction m with
  | nil => simp [alInsert, alLookup]
  | cons kv rest ih =>
    obtain ⟨k0, v0⟩ := kv
    by_cases h1 : k0 = k' <;> by_cases h2 : k' = k <;> by_cases h3 : k0 = k <;>
      simp_all [alInsert, alLookup]

/-- A key not among the list's keys has no binding. -/
theorem alLookup_eq_none {K V : Type} [DecidableEq K]
    (m : List (K × V)) (k : K) (h : k ∉ m.map Prod.fst) : alLookup m k = none := by
  induction m with
  | nil => rfl
  | cons kv rest ih =>
    simp only [List.map_cons, List.mem_cons, not_or] at h
    have : kv.1 ≠ k := fun hh => h.1 hh.symm
    obtain ⟨k0, v0⟩ := kv
    simp_all [alLookup]

/-- Deep-merge lemma: after inserting all bindings of `entries` (with distinct
keys) into `base`, the lookup is the union with `entries` taking priority. -/
theorem alLookup_insertAll {K V : Type} [DecidableEq K]
    (base entries : List (K × V)) (k : K)
    (hnd : (entries.map Prod.fst).Nodup) :
    alLookup (alInsertAll base entries) k
      = optOr (alLookup entries k) (alLookup base k) := by
  induction entries generalizing base with
  | nil => simp [alInsertAll, alLookup, optOr]
  | cons kv rest ih =>
    obtain ⟨k0, v0⟩ := kv
    simp only [List.map_cons, List.nodup_cons] at hnd
    have hstep : alInsertAll base ((k0, v0) :: rest)
        = alInsertAll (alInsert base k0 v0) rest := rfl
    rw [hstep, ih _ hnd.2, alLookup_insert]
    by_cases h : k0 = k
    · subst h
      have hrk : alLookup rest k0 = none :=
        alLookup_eq_none _ _ (by simpa using hnd.1)
      simp [alLookup, optOr, hrk]
    · simp [alLookup, h, optOr]

/-- The downloads block leaves `natives` unchanged. -/
theorem mergeDownloadsStep_natives (p : PartialLibrary) (m : Library) :
    (mergeDownloadsStep p m).natives = m.natives := by
  unfold mergeDownloadsStep
  split
  · split <;> rfl
  · rfl

/-- The downloads block leaves `rules` unchanged. -/
theorem mergeDownloadsStep_rules (p : PartialLibrary) (m : Library) :
    (mergeDownloadsStep p m).rules = m.rules := by
  unfold mergeDownloadsStep
  split
  · split <;> rfl
  · rfl

/-- The downloads block leaves `version_hashes` unchanged. -/
theorem mergeDownloadsStep_vh (p : PartialLibrary) (m : Library) :
    (mergeDownloadsStep p m).version_hashes = m.version_hashes := by
  unfold mergeDownloadsStep
  split
  · split <;> rfl
  · rfl

/-- The extract block touches only `extract`. -/
theorem mergeExtractStep_downloads (p : PartialLibrary) (m : Library) :
    (mergeExtractStep p m).downloads = m.downloads := by
  unfold mergeExtractStep
  split <;> rfl

theorem mergeExtractStep_natives (p : PartialLibrary) (m : Library) :
    (mergeExtractStep p m).natives = m.natives := by
  unfold mergeExtractStep
  split <;> rfl

theorem mergeExtractStep_rules (p : PartialLibrary) (m : Library) :
    (mergeExtractStep p m).rules = m.rules := by
  unfold mergeExtractStep
  split <;> rfl

theorem mergeExtractStep_vh (p : PartialLibrary) (m : Library) :
    (mergeExtractStep p m).version_hashes = m.version_hashes := by
  unfold mergeExtractStep
  split <;> rfl

/-- The name block touches only `name`. -/
theorem mergeNameStep_downloads (p : PartialLibrary) (m : Library) :
    (mergeNameStep p m).downloads = m.downloads := by
  unfold mergeNameStep
  split <;> rfl

theorem mergeNameStep_natives (p : PartialLibrary) (m : Library) :
    (mergeNameStep p m).natives = m.natives := by
  unfold mergeNameStep
  split <;> rfl

theorem mergeNameStep_rules (p : PartialLibrary) (m : Library) :
    (mergeNameStep p m).rules = m.rules := by
  unfold mergeNameStep
  split <;> rfl

theorem mergeNameStep_vh (p : PartialLibrary) (m : Library) :
    (mergeNameStep p m).version_hashes = m.version_hashes := by
  unfold mergeNameStep
  split <;> rfl

/-- The url block touches only `url`. -/
theorem mergeUrlStep_downloads (p : PartialLibrary) (m : Library) :
    (mergeUrlStep p m).downloads = m.downloads := by
  unfold mergeUrlStep
  split <;> rfl

theorem mergeUrlStep_natives (p : PartialLibrary) (m : Library) :
    (mergeUrlStep p m).natives = m.natives := by
  unfold mergeUrlStep
  split <;> rfl

theorem mergeUrlStep_rules (p : PartialLibrary) (m : Library) :
    (mergeUrlStep p m).rules = m.rules := by
  unfold mergeUrlStep
  split <;> rfl

theorem mergeUrlStep_vh (p : PartialLibrary) (m : Library) :
    (mergeUrlStep p m).version_hashes = m.version_hashes := by
  unfold mergeUrlStep
  split <;> rfl

/-- The natives block leaves `downloads` unchanged. -/
theorem mergeNativesStep_downloads (p : PartialLibrary) (m : Library) :
    (mergeNativesStep p m).downloads = m.downloads := by
  unfold mergeNativesStep
  split
  · split <;> rfl
  · rfl

theorem mergeNativesStep_rules (p : PartialLibrary) (m : Library) :
    (mergeNativesStep p m).rules = m.rules := by
  unfold mergeNativesStep
  split
  · split <;> rfl
  · rfl

theorem mergeNativesStep_vh (p : PartialLibrary) (m : Library) :
    (mergeNativesStep p m).version_hashes = m.version_hashes := by
  unfold mergeNativesStep
  split
  · split <;> rfl
  · rfl

/-- The rules block leaves `downloads` unchanged. -/
theorem mergeRulesStep_downloads (p : PartialLibrary) (m : Library) :
    (mergeRulesStep p m).downloads = m.downloads := by
  unfold mergeRulesStep
  split
  · split <;> rfl
  · rfl

theorem mergeRulesStep_natives (p : PartialLibrary) (m : Library) :
    (mergeRulesStep p m).natives = m.natives := by
  unfold mergeRulesStep
  split
  · split <;> rfl
  · rfl

theorem mergeRulesStep_vh (p : PartialLibrary) (m : Library) :
    (mergeRulesStep p m).version_hashes = m.version_hashes := by
  unfold mergeRulesStep
  split
  · split <;> rfl
  · rfl

/-- The checksums block touches only `checksums`. -/
theorem mergeChecksumsStep_downloads (p : PartialLibrary) (m : Library) :
    (mergeChecksumsStep p m).downloads = m.downloads := by
  unfold mergeChecksumsStep
  split <;> rfl

theorem mergeChecksumsStep_natives (p : PartialLibrary) (m : Library) :
    (mergeChecksumsStep p m).natives = m.natives := by
  unfold mergeChecksumsStep
  split <;> rfl

theorem mergeChecksumsStep_rules (p : PartialLibrary) (m : Library) :
    (mergeChecksumsStep p m).rules = m.rules := by
  unfold mergeChecksumsStep
  split <;> rfl

theorem mergeChecksumsStep_vh (p : PartialLibrary) (m : Library) :
    (mergeChecksumsStep p m).version_hashes = m.version_hashes := by
  unfold mergeChecksumsStep
  split <;> rfl

/-- The classpath block touches only `include_in_classpath`. -/
theorem mergeClasspathStep_downloads (p : PartialLibrary) (m : Library) :
    (mergeClasspathStep p m).downloads = m.downloads := by
  unfold mergeClasspathStep
  split <;> rfl

theorem mergeClasspathStep_natives (p : PartialLibrary) (m : Library) :
    (mergeClasspathStep p m).natives = m.natives := by
  unfold mergeClasspathStep
  split <;> rfl

theorem mergeClasspathStep_rules (p : PartialLibrary) (m : Library) :
    (mergeClasspathStep p m).rules = m.rules := by
  unfold mergeClasspathStep
  split <;> rfl

theorem mergeClasspathStep_vh (p : PartialLibrary) (m : Library) :
    (mergeClasspathStep p m).version_hashes = m.version_hashes := by
  unfold mergeClasspathStep
  split <;> rfl

/-- The whole merge's `downloads` field comes from the downloads block alone. -/
theorem merge_downloads_eq (p : PartialLibrary) (L : Library) :
    (merge_partial_library p L).downloads = (mergeDownloadsStep p L).downloads := by
  show (mergeClasspathStep p (mergeChecksumsStep p (mergeRulesStep p
    (mergeNativesStep p (mergeUrlStep p (mergeNameStep p (mergeExtractStep p
      (mergeDownloadsStep p L)))))))).downloads = _
  rw [mergeClasspathStep_downloads, mergeChecksumsStep_downloads,
    mergeRulesStep_downloads, mergeNativesStep_downloads, mergeUrlStep_downloads,
    mergeNameStep_downloads, mergeExtractStep_downloads]

/-- The whole merge's `natives` field comes from the natives block applied to a
library whose `natives` field is still the base's. -/
theorem merge_natives_eq (p : PartialLibrary) (L : Library) :
    (merge_partial_library p L).natives
      = (mergeNativesStep p (mergeUrlStep p (mergeNameStep p (mergeExtractStep p
          (mergeDownloadsStep p L))))).natives := by
  show (mergeClasspathStep p (mergeChecksumsStep p (mergeRulesStep p
    (mergeNativesStep p (mergeUrlStep p (mergeNameStep p (mergeExtractStep p
      (mergeDownloadsStep p L)))))))).natives = _
  rw [mergeClasspathStep_natives, mergeChecksumsStep_natives, mergeRulesStep_natives]

/-- The whole merge's `version_hashes` field is the base's: no block touches it. -/
theorem merge_vh_eq (p : PartialLibrary) (L : Library) :
    (merge_partial_library p L).version_hashes = L.version_hashes := by
  show (mergeClasspathStep p (mergeChecksumsStep p (mergeRulesStep p
    (mergeNativesStep p (mergeUrlStep p (mergeNameStep p (mergeExtractStep p
      (mergeDownloadsStep p L)))))))).version_hashes = _
  rw [mergeClasspathStep_vh, mergeChecksumsStep_vh, mergeRulesStep_vh,
    mergeNativesStep_vh, mergeUrlStep_vh, mergeNameStep_vh, mergeExtractStep_vh,
    mergeDownloadsStep_vh]

/-- The rules block appends the partial's rules after the base's. -/
theorem mergeRulesStep_rules (p : PartialLibrary) (m : Library) :
    (mergeRulesStep p m).rules
      = match p.rules, m.rules with
        | some rs2, some rs1 => some (rs1 ++ rs2)
        | some rs2, none => some rs2
        | none, r => r := by
  unfold mergeRulesStep
  rcases hp : p.rules with _ | rs2 <;> rcases hm : m.rules with _ | rs1 <;>
    simp [hp, hm]

/-- Characterization of the whole merge's `rules` field. -/
theorem merge_rules_eq (p : PartialLibrary) (L : Library) :
    (merge_partial_library p L).rules
      = match p.rules, L.rules with
        | some rs2, some rs1 => some (rs1 ++ rs2)
        | some rs2, none => some rs2
        | none, r => r := by
  show (mergeClasspathStep p (mergeChecksumsStep p (mergeRulesStep p
    (mergeNativesStep p (mergeUrlStep p (mergeNameStep p (mergeExtractStep p
      (mergeDownloadsStep p L)))))))).rules = _
  rw [mergeClasspathStep_rules, mergeChecksumsStep_rules, mergeRulesStep_rules,
    mergeNativesStep_rules, mergeUrlStep_rules, mergeNameStep_rules,
    mergeExtractStep_rules, mergeDownloadsStep_rules]

/-- Self-absorption of `optOr` with an empty fallback. -/
theorem optOr_self_none {α : Type} (a : Option α) : a = optOr a none := by
  cases a <;> rfl

/-- Pointwise behaviour of the downloads block on classifiers: the result is
the union of the two maps with the partial taking priority. -/
theorem mergeDownloadsStep_classifiers (p : PartialLibrary) (m : Library)
    (k : String) (hnd : ((pClassifiers p).map Prod.fst).Nodup) :
    alLookup (libClassifiers (mergeDownloadsStep p m)) k
      = optOr (alLookup (pClassifiers p) k) (alLookup (libClassifiers m) k) := by
  rcases hpd : p.downloads with _ | d
  · simp [mergeDownloadsStep, hpd, pClassifiers, alLookup, optOr]
  · have hpc : pClassifiers p = d.classifiers.getD [] := by
      simp [pClassifiers, hpd]
    rcases hmd : m.downloads with _ | md
    · have hstep : mergeDownloadsStep p m = { m with downloads := some d } := by
        simp [mergeDownloadsStep, hpd, hmd]
      rw [hstep]
      simp only [libClassifiers, hmd, hpc]
      exact optOr_self_none _
    · rcases hdc : d.classifiers with _ | cs
      · have hempty : pClassifiers p = [] := by rw [hpc, hdc]; rfl
        rcases hda : d.artifact with _ | a <;>
        · have hstep : (mergeDownloadsStep p m).downloads.map
              (fun x => x.classifiers) = some md.classifiers := by
            simp [mergeDownloadsStep, hpd, hmd, hdc, hda]
          simp only [libClassifiers, hempty, alLookup, optOr]
          rcases hres : (mergeDownloadsStep p m).downloads with _ | rd
          · rw [hres] at hstep; simp at hstep
          · rw [hres] at hstep
            simp only [Option.map_some', Option.some.injEq] at hstep
            rw [hmd]
            show alLookup (rd.classifiers.getD []) k
              = alLookup (md.classifiers.getD []) k
            rw [hstep]
      · rcases hda : d.artifact with _ | a <;>
        · rcases hmc : md.classifiers with _ | mcs
          · have hstep : (mergeDownloadsStep p m).downloads.map
                (fun x => x.classifiers) = some (some cs) := by
              simp [mergeDownloadsStep, hpd, hmd, hdc, hda, hmc]
            rcases hres : (mergeDownloadsStep p m).downloads with _ | rd
            · rw [hres] at hstep; simp at hstep
            · rw [hres] at hstep
              simp only [Option.map_some', Option.some.injEq] at hstep
              simp only [libClassifiers, hres, hstep, hmd, hmc, hpc, hdc,
                Option.getD_some, Option.getD_none]
              exact optOr_self_none _
          · have hstep : (mergeDownloadsStep p m).downloads.map
                (fun x => x.classifiers) = some (some (alInsertAll mcs cs)) := by
              simp [mergeDownloadsStep, hpd, hmd, hdc, hda, hmc]
            rcases hres : (mergeDownloadsStep p m).downloads with _ | rd
            · rw [hres] at hstep; simp at hstep
            · rw [hres] at hstep
              simp only [Option.map_some', Option.some.injEq] at hstep
              rw [hpc, hdc] at hnd
              simp only [libClassifiers, hres, hstep, hmd, hmc, hpc, hdc,
                Option.getD_some]
              exact alLookup_insertAll mcs cs k (by simpa using hnd)

/-- Pointwise behaviour of the natives block: union with partial priority. -/
theorem mergeNativesStep_natives (p : PartialLibrary) (m : Library) (ko : Os)
    (hnd : ((pNatives p).map Prod.fst).Nodup) :
    alLookup (libNatives (mergeNativesStep p m)) ko
      = optOr (alLookup (pNatives p) ko) (alLookup (libNatives m) ko) := by
  rcases hpn : p.natives with _ | ns
  · simp [mergeNativesStep, hpn, pNatives, alLookup, optOr]
  · have hpc : pNatives p = ns := by simp [pNatives, hpn]
    rcases hmn : m.natives with _ | mns
    · have hstep : mergeNativesStep p m = { m with natives := some ns } := by
        simp [mergeNativesStep, hpn, hmn]
      rw [hstep]
      simp only [libNatives, hmn, hpc, Option.getD_some, Option.getD_none]
      exact optOr_self_none _
    · have hstep : mergeNativesStep p m
          = { m with natives := some (alInsertAll mns ns) } := by
        simp [mergeNativesStep, hpn, hmn]
      rw [hstep]
      rw [hpc] at hnd
      simp only [libNatives, hmn, hpc, Option.getD_some]
      exact alLookup_insertAll mns ns ko hnd

/-- Claim C3 (amended): when `version_hashes` holds the requested version with
a hash of byte length at least 2 whose byte index 2 falls on a character
boundary, `resolve_url` returns exactly the CAS URL, never the `url` field;
when `version_hashes` is absent or lacks the version key it returns the `url`
field, hence `none` when that too is absent. -/
theorem resolve_url_precedence (L : Library) (v b : String) (c : Nat) :
    (∀ (hs : List (String × String)) (h pre suf : String),
        L.version_hashes = some hs → alLookup hs v = some h →
        ¬ utf8ByteLen h < 2 → utf8SplitAt h 2 = some (pre, suf) →
        L.resolve_url v b c
          = Fallible.ok (some (b ++ "/v" ++ toString c ++ "/objects/" ++
              pre ++ "/" ++ suf)))
  ∧ ((∀ hs : List (String × String),
        L.version_hashes = some hs → alLookup hs v = none) →
      L.resolve_url v b c = Fallible.ok L.url)
  ∧ (L.version_hashes = none → L.resolve_url v b c = Fallible.ok L.url) := by
  refine ⟨?_, ?_, ?_⟩
  · intro hs h pre suf h1 h2 h3 h4
    unfold Library.resolve_url
    simp only [h1, h2, h4, if_neg h3]
  · intro hnone
    rcases h1 : L.version_hashes with _ | hs
    · unfold Library.resolve_url
      simp only [h1]
    · have h2 := hnone hs h1
      unfold Library.resolve_url
      simp only [h1, h2]
  · intro h1
    unfold Library.resolve_url
    simp only [h1]

/-- Witness for C3: the hash-based CAS URL is produced even though `url` is
present. -/
theorem resolve_url_precedence_witness :
    libC3.resolve_url "1.16.5" "https://maven.modrinth.com" 0
      = Fallible.ok (some "https://maven.modrinth.com/v0/objects/ab/c123def456") := by
  have h := (resolve_url_precedence libC3 "1.16.5" "https://maven.modrinth.com" 0).1
    [("1.16.5", "abc123def456")] "abc123def456" "ab" "c123def456"
    rfl (by decide) (by decide) (by decide)
  exact h.trans (by decide)

/-- Counterexample for C3 as stated: the stored hash has byte length at least
2, yet the call panics instead of returning the CAS URL (so in particular it
returns no `Fallible.ok` value at all). -/
theorem resolve_url_precedence_cex :
    2 ≤ utf8ByteLen "aé"
  ∧ libC3x.resolve_url "1.20" "https://cas" 0 = Fallible.crash := by decide

/-- Claim C4: the length guard does return absence for a hash of length 1, but
`resolve_url` is not crash-free: `hash.len()` counts bytes and `&hash[..2]`
panics when byte index 2 is not a character boundary, as for the stored hash
"aé" (bytes 61 C3 A9). -/
theorem resolve_url_crash_on_multibyte_hash :
    libC4.resolve_url "1.21" "https://cas" 0 = Fallible.ok none
  ∧ libC4.resolve_url "1.20" "https://cas" 0 = Fallible.crash := by decide

/-- Claim C5: merging the empty partial returns the base library with only
`patched` set to true, and every merge result has `patched = true`. -/
theorem merge_empty_partial_identity :
    (∀ L : Library, merge_partial_library emptyPartial L = { L with patched := true })
  ∧ (∀ (p : PartialLibrary) (L : Library), (merge_partial_library p L).patched = true) :=
  ⟨fun _ => rfl, fun _ _ => rfl⟩

/-- Claim C6: merged rules are exactly the base rules followed by the partial
rules in order; when the base has none, exactly the partial's. -/
theorem merge_rules_append (p : PartialLibrary) (L : Library) (rs2 : List Rule)
    (h2 : p.rules = some rs2) :
    (∀ rs1 : List Rule, L.rules = some rs1 →
        (merge_partial_library p L).rules = some (rs1 ++ rs2))
  ∧ (L.rules = none → (merge_partial_library p L).rules = some rs2) := by
  constructor
  · intro rs1 h1
    rw [merge_rules_eq, h2, h1]
  · intro h1
    rw [merge_rules_eq, h2, h1]

/-- Witness for C6: `merge({rules:[r2]}, {rules:[r1]}).rules == [r1, r2]`. -/
theorem merge_rules_append_witness :
    (merge_partial_library partC6 libC6).rules = some [ruleAllowAll, ruleDisallowOsx] :=
  (merge_rules_append partC6 libC6 [ruleDisallowOsx] rfl).1 [ruleAllowAll] rfl

/-- Claim C7: the merge deep-merges `downloads.classifiers` and `natives`:
pointwise, the merged mapping is the union of the two, partial entries
overwriting same-keyed base entries and base-only entries surviving. -/
theorem merge_deep_merges_classifiers_and_natives (p : PartialLibrary)
    (L : Library) (k : String) (ko : Os)
    (hc : ((pClassifiers p).map Prod.fst).Nodup)
    (hn : ((pNatives p).map Prod.fst).Nodup) :
    alLookup (libClassifiers (merge_partial_library p L)) k
      = optOr (alLookup (pClassifiers p) k) (alLookup (libClassifiers L) k)
  ∧ alLookup (libNatives (merge_partial_library p L)) ko
      = optOr (alLookup (pNatives p) ko) (alLookup (libNatives L) ko) := by
  constructor
  · have hdl : libClassifiers (merge_partial_library p L)
        = libClassifiers (mergeDownloadsStep p L) := by
      unfold libClassifiers
      rw [merge_downloads_eq]
    rw [hdl]
    exact mergeDownloadsStep_classifiers p L k hc
  · have hna : libNatives (merge_partial_library p L)
        = libNatives (mergeNativesStep p (mergeUrlStep p (mergeNameStep p
            (mergeExtractStep p (mergeDownloadsStep p L))))) := by
      unfold libNatives
      rw [merge_natives_eq]
    have hbase : libNatives (mergeUrlStep p (mergeNameStep p (mergeExtractStep p
        (mergeDownloadsStep p L)))) = libNatives L := by
      unfold libNatives
      rw [mergeUrlStep_natives, mergeNameStep_natives, mergeExtractStep_natives,
        mergeDownloadsStep_natives]
    rw [hna, mergeNativesStep_natives p _ ko hn, hbase]

/-- Witness for C7: merging classifiers `{"a":X}` into a base with `{"b":Y}`
yields both entries, and natives merge the same way. -/
theorem merge_deep_merges_witness :
    alLookup (libClassifiers (merge_partial_library partC7 libC7)) "a" = some dlX
  ∧ alLookup (libClassifiers (merge_partial_library partC7 libC7)) "b" = some dlY
  ∧ alLookup (libNatives (merge_partial_library partC7 libC7)) Os.Osx
      = some "natives-osx"
  ∧ alLookup (libNatives (merge_partial_library partC7 libC7)) Os.Linux
      = some "natives-linux" := by
  have ha := merge_deep_merges_classifiers_and_natives partC7 libC7 "a" Os.Osx
    (by decide) (by decide)
  have hb := merge_deep_merges_classifiers_and_natives partC7 libC7 "b" Os.Linux
    (by decide) (by decide)
  exact ⟨ha.1.trans (by decide), hb.1.trans (by decide),
    ha.2.trans (by decide), hb.2.trans (by decide)⟩

/-- Claim C10 (amended): the merge leaves `version_hashes` unchanged, and
`resolve_url` is invariant under merging whenever `version_hashes` holds the
requested version; when resolution falls back to the `url` field, a partial's
`url` override can change the result. -/
theorem merge_preserves_version_hashes (p : PartialLibrary) (L : Library) :
    ((merge_partial_library p L).version_hashes = L.version_hashes)
  ∧ (∀ (v b : String) (c : Nat) (hs : List (String × String)) (hsh : String),
      L.version_hashes = some hs → alLookup hs v = some hsh →
      (merge_partial_library p L).resolve_url v b c = L.resolve_url v b c) := by
  refine ⟨merge_vh_eq p L, ?_⟩
  intro v b c hs hsh h1 h2
  unfold Library.resolve_url
  simp only [merge_vh_eq p L, h1, h2]

/-- Witness for C10: hashes survive the merge and hash-based resolution is
unchanged even though the partial overrode `url`. -/
theorem merge_preserves_version_hashes_witness :
    (merge_partial_library partC10 libC10).version_hashes = libC10.version_hashes
  ∧ (merge_partial_library partC10 libC10).resolve_url "1.20" "https://cas" 0
      = libC10.resolve_url "1.20" "https://cas" 0 := by
  have h := merge_preserves_version_hashes partC10 libC10
  exact ⟨h.1, h.2 "1.20" "https://cas" 0 [("1.20", "abcd1234")] "abcd1234"
    rfl (by decide)⟩

/-- Counterexample for C10 as stated: `resolve_url` results are not invariant
under merging, because the partial's `url` override changes the fallback. -/
theorem merge_changes_resolve_url_cex :
    (merge_partial_library partC10x libC10x).resolve_url "1.20" "https://cas" 0
      ≠ libC10x.resolve_url "1.20" "https://cas" 0 := by decide

/-- Claim C8: the fingerprint is computed over a copy whose `release_time` is
reset to the fixed sentinel, so two groups identical except for
`release_time` fingerprint identically, while the returned entry's group
keeps the original `release_time`. -/
theorem fingerprint_ignores_release_time (g : LibraryGroup) (t : DateTimeUtc) :
    (LWJGLEntry.from_group { g with release_time := t }).sha1
      = (LWJGLEntry.from_group g).sha1
  ∧ (LWJGLEntry.from_group { g with release_time := t }).group.release_time = t
  ∧ (LWJGLEntry.from_group g).group.release_time = g.release_time :=
  ⟨rfl, rfl, rfl⟩

set_option maxRecDepth 100000 in
/-- Claim C1: the fingerprint is not reproducible across runs.  The two groups
hold identical data — their `version_hashes` maps agree on every key and
differ only in iteration order, which a Rust `HashMap` picks from a random
per-map seed — yet the canonical serializations that `LWJGLEntry::from_group`
feeds to SHA-1 differ, so the fingerprint depends on the seed-chosen
iteration order and not only on the group's contents. -/
theorem fingerprint_not_map_order_stable :
    (∀ k : String, alLookup [("a", "xx"), ("b", "yy")] k
        = alLookup [("b", "yy"), ("a", "xx")] k)
  ∧ serializeLibraryGroup groupC1a ≠ serializeLibraryGroup groupC1b
  ∧ (LWJGLEntry.from_group groupC1a).sha1
      = sha1Hex (serializeLibraryGroup { groupC1a with release_time := dateTimeDefault })
  ∧ (LWJGLEntry.from_group groupC1b).sha1
      = sha1Hex (serializeLibraryGroup { groupC1b with release_time := dateTimeDefault }) := by
  refine ⟨?_, by decide, rfl, rfl⟩
  intro k
  by_cases h1 : "a" = k
  · subst h1; decide
  · by_cases h2 : "b" = k
    · subst h2; decide
    · simp [alLookup, h1, h2]

/-- Claim C9: rule evaluation of a nonempty sequence is the fold from `false`
in which each matching rule overwrites the running decision (Allow to true,
Disallow to false); hence the last matching rule wins: with both rules
matching the context, [Allow, Disallow] evaluates to false and
[Disallow, Allow] to true. -/
theorem evaluateRules_last_match_wins (vmatch : String → Option String → Bool)
    (ctx : ExecutionContext) (rules : List Rule) (r1 r2 : Rule)
    (hne : rules ≠ [])
    (hm1 : r1.matchesCtx vmatch ctx = true)
    (hm2 : r2.matchesCtx vmatch ctx = true)
    (ha1 : r1.action = RuleAction.Allow)
    (ha2 : r2.action = RuleAction.Disallow) :
    evaluateRules vmatch rules ctx
      = rules.foldl
          (fun acc r =>
            if r.matchesCtx vmatch ctx then
              match r.action with
              | RuleAction.Allow => true
              | RuleAction.Disallow => false
            else acc) false
  ∧ evaluateRules vmatch [r1, r2] ctx = false
  ∧ evaluateRules vmatch [r2, r1] ctx = true := by
  refine ⟨?_, ?_, ?_⟩
  · cases rules with
    | nil => exact absurd rfl hne
    | cons r rs => rfl
  · simp [evaluateRules, List.foldl, hm1, hm2, ha1, ha2]
  · simp [evaluateRules, List.foldl, hm1, hm2, ha1, ha2]

/-- Witness for C9: concrete last-match-wins evaluations. -/
theorem evaluateRules_last_match_wins_witness :
    evaluateRules (fun _ _ => false) [ruleAllowAll, ruleDisallowAll] ctxLinux = false
  ∧ evaluateRules (fun _ _ => false) [ruleDisallowAll, ruleAllowAll] ctxLinux = true := by
  have h := evaluateRules_last_match_wins (fun _ _ => false) ctxLinux
    [ruleAllowAll] ruleAllowAll ruleDisallowAll
    (by decide) rfl rfl rfl rfl
  exact ⟨h.2.1, h.2.2⟩

/-- Claim C2: an unrecognized OS token is not absorbed into `Unknown`: the
derive has no `serde(other)` attribute, so a token outside the eight renamed
variant tokens raises an unknown-variant parse error, and the `Unknown`
variant is produced only by the literal token "unknown". -/
theorem os_deserialize_unknown_token_errors :
    Os.deserialize "freebsd" = Except.error "unknown variant freebsd"
  ∧ Os.deserialize "unknown" = Except.ok Os.Unknown
  ∧ Os.deserialize "osx" = Except.ok Os.Osx
  ∧ Os.deserialize "osx-arm64" = Except.ok Os.OsxArm64
  ∧ Os.deserialize "windows" = Except.ok Os.Windows
  ∧ Os.deserialize "windows-arm64" = Except.ok Os.WindowsArm64
  ∧ Os.deserialize "linux" = Except.ok Os.Linux
  ∧ Os.deserialize "linux-arm64" = Except.ok Os.LinuxArm64
  ∧ Os.deserialize "linux-arm32" = Except.ok Os.LinuxArm32 :=
  ⟨rfl, rfl, rfl, rfl, rfl, rfl, rfl, rfl, rfl⟩
